import Mathlib

/-!
Shallow embedding of the constraint-evaluation core of `django-email-signals`
(`email_signals/constraint_checker.py` and `email_signals/signals.py`).

Python runtime values that can appear as comparison operands are modelled by
`Value`; Python exceptions by `PyError`; fallible Python code returns
`Except PyError _`.  Django model instances are modelled as an association
list of attributes plus a content-type tag; the configuration database as a
list of `Signal` rows and a list of `SignalConstraint` rows.
-/

/-- A Python runtime value usable as a comparison operand.  Floats are
modelled exactly as rationals (the literals involved are short decimal
strings, which denote rationals). -/
inductive Value where
  | int (n : Int)
  | float (q : Rat)
  | bool (b : Bool)
  | str (s : String)
  | none
  deriving Repr, DecidableEq

/-- A Python exception, as raised by the embedded code.
`valueError` covers the spec's ResolutionError / UnknownComparisonError
(the source raises `ValueError` for both); `nameError` is Python's
`NameError`, raised when an undefined name is referenced;
`doesNotExist` and `multipleObjectsReturned` are the errors Django's
`Manager.get` raises when the lookup is not unique. -/
inductive PyError where
  | valueError (msg : String)
  | nameError (name : String)
  | doesNotExist
  | multipleObjectsReturned
  deriving Repr, DecidableEq

/-- A Django model instance: its readable attributes and the content type
of its model class (`ContentType.objects.get_for_model`). -/
structure Instance where
  content_type : Nat
  attrs : List (String × Value)
  deriving Repr, DecidableEq

/-- A row of the `Signal` model: which model class and which lifecycle
signal it watches.  The email-template fields are irrelevant to the core
and omitted; a row is identified by `id`. -/
structure Signal where
  id : Nat
  content_type : Nat
  signal_type : String
  deriving Repr, DecidableEq

/-- A row of the `SignalConstraint` model: the owning signal's id, the two
symbolic operands and the comparison name (the source spells the field
`comparision`). -/
structure SignalConstraint where
  signal : Nat
  param_1 : String
  param_2 : Option String
  comparision : String
  deriving Repr, DecidableEq

/-- The persisted configuration records, read-only to the core. -/
structure DB where
  signals : List Signal
  constraints : List SignalConstraint
  deriving Repr, DecidableEq

/-- The keyword payload handed to the signal callback. -/
abbrev Kwargs := List (String × Value)

/-- Django `Manager.get` filtered on content type: returns the unique
matching row, raises `DoesNotExist` when no row matches and
`MultipleObjectsReturned` when several do; embeds
`Signal.objects.get(content_type=ContentType.objects.get_for_model(instance))`. -/
def signal_objects_get (signals : List Signal) (ct : Nat) : Except PyError Signal :=
  match signals.filter (fun s => s.content_type = ct) with
  | [] => .error .doesNotExist
  | [s] => .ok s
  | _ :: _ :: _ => .error .multipleObjectsReturned

/-- `SignalConstraint.objects.filter(signal=sig)`: the constraint rows
attached to signal row `sig`, in stored order. -/
def signal_constraint_objects_filter (constraints : List SignalConstraint)
    (sig : Signal) : List SignalConstraint :=
  constraints.filter (fun c => c.signal = sig.id)

/-- Modelled from the spec: `utils.get_param_from_obj` (the Operand
Resolver's object-attribute step; `utils.py` is not among the given
sources).  Per §4.1, it attempts to read the parameter name as an
attribute/field of the changed object, reporting success and the value. -/
def get_param_from_obj (param : String) (inst : Instance) : Bool × Value :=
  match inst.attrs.lookup param with
  | some v => (true, v)
  | Option.none => (false, Value.none)

/-- Is the character list a nonempty run of decimal digits? -/
def isDigitRun (l : List Char) : Bool :=
  !l.isEmpty && l.all (fun c => c.isDigit)

/-- The natural number denoted by a run of decimal digits. -/
def digitsToNat (l : List Char) : Nat :=
  l.foldl (fun a c => a * 10 + (c.toNat - 48)) 0

/-- Parse a nonempty all-digit string as a natural number literal. -/
def parseNatLit (s : String) : Option Nat :=
  if isDigitRun s.toList then some (digitsToNat s.toList) else Option.none

/-- Split a character list at its first dot. -/
def splitAtDot : List Char → Option (List Char × List Char)
  | [] => Option.none
  | c :: rest =>
    if c = '.' then some ([], rest)
    else
      match splitAtDot rest with
      | some (a, b) => some (c :: a, b)
      | Option.none => Option.none

/-- Parse a decimal float literal `digits.digits` as the exact rational it
denotes. -/
def parseFloatLit (s : String) : Option Rat :=
  match splitAtDot s.toList with
  | some (a, b) =>
    if isDigitRun a && isDigitRun b then
      some (mkRat (digitsToNat a * 10 ^ b.length + digitsToNat b) (10 ^ b.length))
    else Option.none
  | Option.none => Option.none

/-- Modelled from the spec: `utils.convert_to_primitive` (the literal-parsing
fallback for the second operand; `utils.py` is not among the given sources).
Per §4.1 and §8 it parses the string as an integer, float, or boolean, and
otherwise yields the string itself unchanged, so it always reports success;
it returns the `(passed, value)` pair the caller destructures. -/
def convert_to_primitive (s : String) : Bool × Value :=
  match parseNatLit s with
  | some n => (true, Value.int (n : Int))
  | Option.none =>
    match parseFloatLit s with
    | some q => (true, Value.float q)
    | Option.none =>
      if s = "true" then (true, Value.bool true)
      else if s = "false" then (true, Value.bool false)
      else (true, Value.str s)

/-- Modelled from the spec: the Comparison Registry (`constraint_methods.py`
is not among the given sources).  Per §4.2 it is a closed, statically known
set of named binary predicates — equality, inequality, ordering,
containment — looked up by name; `getattr(constraint_methods, name, None)`
yields the predicate or `None`.  Ordering predicates raise a typed error on
incompatible operand types (modelled as `valueError`). -/
def constraint_methods_getattr (name : String) :
    Option (Value → Value → Except PyError Bool) :=
  if name = "equals" then some (fun a b => .ok (a = b))
  else if name = "not_equals" then some (fun a b => .ok (¬ a = b))
  else if name = "gt" then some (fun a b =>
    match a, b with
    | Value.int x, Value.int y => .ok (y < x)
    | Value.float x, Value.float y => .ok (y < x)
    | _, _ => .error (.valueError "IncompatibleOperands"))
  else if name = "lt" then some (fun a b =>
    match a, b with
    | Value.int x, Value.int y => .ok (x < y)
    | Value.float x, Value.float y => .ok (x < y)
    | _, _ => .error (.valueError "IncompatibleOperands"))
  else if name = "contains" then some (fun a b =>
    match a, b with
    | Value.str x, Value.str y => .ok (List.IsInfix y.toList x.toList)
    | _, _ => .error (.valueError "IncompatibleOperands"))
  else Option.none

/-- The state of a constructed `ConstraintChecker`: the fields `__init__`
assigns on `self` (the constraint queryset already fetched). -/
structure ConstraintChecker where
  inst : Instance
  signal_kwargs : Kwargs
  constraints : List SignalConstraint
  deriving Repr, DecidableEq

/-- `ConstraintChecker.__init__(instance, signal_kwargs)`: stores the
instance and kwargs and fetches
`SignalConstraint.objects.filter(signal=Signal.objects.get(content_type=ContentType.objects.get_for_model(instance)))`;
the `Signal.objects.get` error propagates out of construction. -/
def ConstraintChecker.init (db : DB) (inst : Instance) (signal_kwargs : Kwargs) :
    Except PyError ConstraintChecker := do
  let sig ← signal_objects_get db.signals inst.content_type
  .ok { inst := inst, signal_kwargs := signal_kwargs,
        constraints := signal_constraint_objects_filter db.constraints sig }

/-- The source's resolution of `param_1` inside `get_params`: the keyword
payload first, else `utils.get_param_from_obj`, else
`raise ValueError(f"ContainsChecker: param_1 {param_1} not found in kwargs"
"in instance")` (the two adjacent string literals concatenate with no
space). -/
def ConstraintChecker.resolve_param_1 (cc : ConstraintChecker) (param_1 : String) :
    Except PyError Value :=
  match cc.signal_kwargs.lookup param_1 with
  | some v => .ok v
  | Option.none =>
    match get_param_from_obj param_1 cc.inst with
    | (true, v) => .ok v
    | (false, _) =>
      .error (.valueError
        ("ContainsChecker: param_1 " ++ param_1 ++ " not found in kwargs" ++ "in instance"))

/-- The source's resolution of `param_2` inside `get_params`: `None` stays
`None`; otherwise the keyword payload, else `hasattr`/`getattr` on the
instance, else `utils.convert_to_primitive`, whose failure raises
`ValueError`. -/
def ConstraintChecker.resolve_param_2 (cc : ConstraintChecker) (param_2 : Option String) :
    Except PyError Value :=
  match param_2 with
  | Option.none => .ok Value.none
  | some p2 =>
    match cc.signal_kwargs.lookup p2 with
    | some v => .ok v
    | Option.none =>
      match cc.inst.attrs.lookup p2 with
      | some v => .ok v
      | Option.none =>
        match convert_to_primitive p2 with
        | (true, v) => .ok v
        | (false, _) =>
          .error (.valueError
            ("ContainsChecker: param_2 " ++ p2 ++ " not found in kwargs or in instance"))

/-- `ConstraintChecker.get_params(constraint)`: resolve both operands,
`param_1` first; either resolution error propagates. -/
def ConstraintChecker.get_params (cc : ConstraintChecker) (c : SignalConstraint) :
    Except PyError (Value × Value) := do
  let param_1_val ← cc.resolve_param_1 c.param_1
  let param_2_val ← cc.resolve_param_2 c.param_2
  .ok (param_1_val, param_2_val)

/-- `ConstraintChecker.check_constraint(param_1, param_2, comparision)`
(a staticmethod): look the comparison up in `constraint_methods`; when the
lookup yields `None` the source executes
`raise ValueError(f"ContainsChecker: comparison {comparison} not found in ...")`,
but `comparison` is not a defined name there (the parameter is spelled
`comparision`), so evaluating the f-string raises `NameError: comparison`
before the `ValueError` is constructed. -/
def ConstraintChecker.check_constraint (param_1 param_2 : Value) (comparision : String) :
    Except PyError Bool :=
  match constraint_methods_getattr comparision with
  | Option.none => .error (.nameError "comparison")
  | some method => method param_1 param_2

/-- The loop body of `run_tests` over the remaining constraints: resolve the
operands, check the constraint, return `False` on the first failure. -/
def ConstraintChecker.run_tests_from (cc : ConstraintChecker) :
    List SignalConstraint → Except PyError Bool
  | [] => .ok true
  | c :: rest => do
    let (param_1, param_2) ← cc.get_params c
    let ok ← ConstraintChecker.check_constraint param_1 param_2 c.comparision
    if ok then cc.run_tests_from rest else .ok false

/-- `ConstraintChecker.run_tests()`: all fetched constraints must pass. -/
def ConstraintChecker.run_tests (cc : ConstraintChecker) : Except PyError Bool :=
  cc.run_tests_from cc.constraints

/-- Modelled from the spec: `models.Signal.get_for_model_and_signal`
(`models.py` is not among the given sources).  Per §4.4 it yields every
stored signal definition whose (object type, event kind) pair matches the
event. -/
def get_for_model_and_signal (db : DB) (inst : Instance) (signal : String) :
    List Signal :=
  db.signals.filter (fun s => s.content_type = inst.content_type && s.signal_type = signal)

/-- The loop of `signal_callback` over the matching signal definitions:
for each, build a fresh `ConstraintChecker` and run it; on pass, request an
email send for that definition (we record the definition), otherwise skip
it.  Construction or evaluation errors propagate. -/
def signal_callback_loop (db : DB) (inst : Instance) (kwargs : Kwargs) :
    List Signal → Except PyError (List Signal)
  | [] => .ok []
  | ms :: rest => do
    let cc ← ConstraintChecker.init db inst kwargs
    let passed ← cc.run_tests
    if passed then do
      let others ← signal_callback_loop db inst kwargs rest
      .ok (ms :: others)
    else signal_callback_loop db inst kwargs rest

/-- `signal_callback(instance, signal, **kwargs)`: look up the matching
signal definitions and run the loop; the result lists the definitions for
which an email send was requested, in order. -/
def signal_callback (db : DB) (inst : Instance) (signal : String) (kwargs : Kwargs) :
    Except PyError (List Signal) :=
  signal_callback_loop db inst kwargs (get_for_model_and_signal db inst signal)

/-! ## Concrete configuration fixtures used by witnesses and counterexamples -/

/-- A stored signal definition watching content type 7 on `pre_save`. -/
def sigPre : Signal := { id := 1, content_type := 7, signal_type := "pre_save" }

/-- A second stored signal definition for the same content type, on `post_save`. -/
def sigPost : Signal := { id := 2, content_type := 7, signal_type := "post_save" }

/-- A constraint attached to `sigPre`: `status equals "active"`. -/
def cStatus : SignalConstraint :=
  { signal := 1, param_1 := "status", param_2 := some "active", comparision := "equals" }

/-- A constraint that fails on `inst7`: `status equals "pending"`. -/
def cFail : SignalConstraint :=
  { signal := 1, param_1 := "status", param_2 := some "pending", comparision := "equals" }

/-- A constraint whose first operand resolves nowhere on `inst7`, so resolving
it raises. -/
def cErr : SignalConstraint :=
  { signal := 1, param_1 := "ghost", param_2 := Option.none, comparision := "equals" }

/-- An instance of content type 7 with attributes `status` and `region`. -/
def inst7 : Instance :=
  { content_type := 7, attrs := [("status", Value.str "active"), ("region", Value.int 1)] }

/-- A database holding exactly one signal for content type 7. -/
def db1 : DB := { signals := [sigPre], constraints := [cStatus] }

/-- A database holding two signals for content type 7, one per event type. -/
def db2 : DB := { signals := [sigPre, sigPost], constraints := [cStatus] }

/-- A checker whose first constraint fails and whose second constraint would
raise a resolution error if it were evaluated. -/
def ccSC : ConstraintChecker :=
  { inst := inst7, signal_kwargs := [], constraints := [cFail, cErr] }

/-- A checker whose payload shadows an attribute of the instance. -/
def ccShadow : ConstraintChecker :=
  { inst := inst7, signal_kwargs := [("status", Value.str "pending")], constraints := [] }

/-! ## Theorems for the claims -/

/-- C6: resolving the second operand when `param_2` is `None` yields `None`
for every checker state, hence without consulting the payload, the object's
attributes, or literal parsing. -/
theorem resolve_param_2_of_none (cc : ConstraintChecker) :
    cc.resolve_param_2 Option.none = .ok Value.none := rfl

/-- C3: a checker constructed by `__init__` whose fetched constraint set is
empty passes `run_tests` trivially. -/
theorem run_tests_of_no_constraints (db : DB) (inst : Instance) (kwargs : Kwargs)
    (cc : ConstraintChecker) (hinit : ConstraintChecker.init db inst kwargs = .ok cc)
    (h0 : cc.constraints = []) : cc.run_tests = .ok true := by
  unfold ConstraintChecker.run_tests
  rw [h0]
  rfl

/-- C3 witness: on the empty-constraint database, construction succeeds and
`run_tests` returns true. -/
theorem run_tests_of_no_constraints_witness :
    ConstraintChecker.run_tests
      { inst := inst7, signal_kwargs := [], constraints := [] } = .ok true :=
  run_tests_of_no_constraints { signals := [sigPre], constraints := [] } inst7 []
    _ rfl rfl

/-- C2: when the first fetched constraint resolves and its comparison
evaluates to false, `run_tests` returns false whatever the remaining
constraints are — they are never resolved, looked up, or evaluated, so a
later constraint that would raise a resolution error cannot raise. -/
theorem run_tests_short_circuits (cc : ConstraintChecker) (c1 : SignalConstraint)
    (rest : List SignalConstraint) (hc : cc.constraints = c1 :: rest)
    (p1 p2 : Value) (h1 : cc.get_params c1 = .ok (p1, p2))
    (h2 : ConstraintChecker.check_constraint p1 p2 c1.comparision = .ok false) :
    cc.run_tests = .ok false := by
  unfold ConstraintChecker.run_tests
  rw [hc]
  unfold ConstraintChecker.run_tests_from
  simp [h1, h2, Bind.bind, Except.bind]

/-- C2 witness: on the checker whose constraint list is `[cFail, cErr]`,
`cFail` fails, `cErr`'s first operand would raise a resolution error, and
`run_tests` returns false without raising. -/
theorem run_tests_short_circuits_witness :
    ConstraintChecker.get_params ccSC cErr =
      .error (.valueError
        ("ContainsChecker: param_1 " ++ "ghost" ++ " not found in kwargs" ++ "in instance")) ∧
    ConstraintChecker.run_tests ccSC = .ok false :=
  ⟨by rfl,
   run_tests_short_circuits ccSC cFail [cErr] rfl
     (Value.str "active") (Value.str "pending") (by rfl) (by rfl)⟩

/-- C7: evaluating a constraint whose comparison name is not registered does
not return a boolean, but the exception raised is `NameError` (the error
message's f-string references the undefined name `comparison`; the parameter
is spelled `comparision`), not the intended `ValueError`. -/
theorem check_constraint_unknown_comparison :
    ConstraintChecker.check_constraint (Value.int 1) (Value.int 2) "bogus_comparison"
      = .error (.nameError "comparison") := rfl

/-- C8: literal parsing of the second operand maps `"123"` to the integer
123, `"true"`/`"false"` to booleans, `"3.14"` to the rational 3.14, any
string that is no integer, float, or boolean literal to itself unchanged,
and always reports success. -/
theorem convert_to_primitive_cases :
    convert_to_primitive "123" = (true, Value.int 123) ∧
    convert_to_primitive "true" = (true, Value.bool true) ∧
    convert_to_primitive "false" = (true, Value.bool false) ∧
    convert_to_primitive "3.14" = (true, Value.float (mkRat 314 100)) ∧
    (mkRat 314 100 : Rat) = 157 / 50 ∧
    (∀ s, parseNatLit s = Option.none → parseFloatLit s = Option.none →
      s ≠ "true" → s ≠ "false" → convert_to_primitive s = (true, Value.str s)) ∧
    (∀ s, (convert_to_primitive s).1 = true) := by
  refine ⟨by decide, by decide, by decide, by rfl, by norm_num [Rat.mkRat_eq_div], ?_, ?_⟩
  · intro s h1 h2 h3 h4
    simp [convert_to_primitive, h1, h2, h3, h4]
  · intro s
    unfold convert_to_primitive
    rcases parseNatLit s with _ | n
    · rcases parseFloatLit s with _ | q
      · by_cases h : s = "true" <;> by_cases h' : s = "false" <;> simp [h, h']
      · rfl
    · rfl

/-- C8 witness: the fallback case applied to the concrete string `"hello"`. -/
theorem convert_to_primitive_cases_witness :
    convert_to_primitive "hello" = (true, Value.str "hello") :=
  convert_to_primitive_cases.2.2.2.2.2.1 "hello" (by rfl) (by rfl)
    (by decide) (by decide)

/-- C4: the first operand is resolved from the keyword payload whenever its
name is a payload key — whatever attributes the instance has — otherwise
from the instance's attribute of that name, and otherwise resolution fails
with the `ValueError` naming the parameter. -/
theorem resolve_param_1_order (cc : ConstraintChecker) (p : String) :
    (∀ v, cc.signal_kwargs.lookup p = some v → cc.resolve_param_1 p = .ok v) ∧
    (cc.signal_kwargs.lookup p = Option.none →
      ∀ v, cc.inst.attrs.lookup p = some v → cc.resolve_param_1 p = .ok v) ∧
    (cc.signal_kwargs.lookup p = Option.none → cc.inst.attrs.lookup p = Option.none →
      cc.resolve_param_1 p = .error (.valueError
        ("ContainsChecker: param_1 " ++ p ++ " not found in kwargs" ++ "in instance"))) := by
  refine ⟨?_, ?_, ?_⟩
  · intro v h
    simp [ConstraintChecker.resolve_param_1, h]
  · intro h v h2
    simp [ConstraintChecker.resolve_param_1, h, get_param_from_obj, h2]
  · intro h h2
    simp [ConstraintChecker.resolve_param_1, h, get_param_from_obj, h2]

/-- C4 witness: on `ccShadow`, whose payload key `status` shadows the
instance attribute `status`, the payload wins; `region` comes from the
instance; `ghost` fails with the `ValueError`. -/
theorem resolve_param_1_order_witness :
    ConstraintChecker.resolve_param_1 ccShadow "status" = .ok (Value.str "pending") ∧
    ConstraintChecker.resolve_param_1 ccShadow "region" = .ok (Value.int 1) ∧
    ConstraintChecker.resolve_param_1 ccShadow "ghost" = .error (.valueError
      ("ContainsChecker: param_1 " ++ "ghost" ++ " not found in kwargs" ++ "in instance")) :=
  ⟨(resolve_param_1_order ccShadow "status").1 _ rfl,
   (resolve_param_1_order ccShadow "region").2.1 rfl _ rfl,
   (resolve_param_1_order ccShadow "ghost").2.2 rfl rfl⟩

/-- C5: a present second operand is resolved from the keyword payload first,
else from the instance's attribute of that name, and only then handed to the
literal-parsing fallback, whose reported failure becomes a `ValueError`. -/
theorem resolve_param_2_order (cc : ConstraintChecker) (p : String) :
    (∀ v, cc.signal_kwargs.lookup p = some v → cc.resolve_param_2 (some p) = .ok v) ∧
    (cc.signal_kwargs.lookup p = Option.none →
      ∀ v, cc.inst.attrs.lookup p = some v → cc.resolve_param_2 (some p) = .ok v) ∧
    (cc.signal_kwargs.lookup p = Option.none → cc.inst.attrs.lookup p = Option.none →
      cc.resolve_param_2 (some p) =
        match convert_to_primitive p with
        | (true, v) => .ok v
        | (false, _) => .error (.valueError
            ("ContainsChecker: param_2 " ++ p ++ " not found in kwargs or in instance"))) := by
  refine ⟨?_, ?_, ?_⟩
  · intro v h
    simp [ConstraintChecker.resolve_param_2, h]
  · intro h v h2
    simp [ConstraintChecker.resolve_param_2, h, h2]
  · intro h h2
    simp [ConstraintChecker.resolve_param_2, h, h2]

/-- C5 witness: on `ccShadow`, the payload wins for `status`, the instance
attribute for `region`, and the literal fallback turns `"42"` into the
integer 42. -/
theorem resolve_param_2_order_witness :
    ConstraintChecker.resolve_param_2 ccShadow (some "status") = .ok (Value.str "pending") ∧
    ConstraintChecker.resolve_param_2 ccShadow (some "region") = .ok (Value.int 1) ∧
    ConstraintChecker.resolve_param_2 ccShadow (some "42") = .ok (Value.int 42) :=
  ⟨(resolve_param_2_order ccShadow "status").1 _ rfl,
   (resolve_param_2_order ccShadow "region").2.1 rfl _ rfl,
   (resolve_param_2_order ccShadow "42").2.2 rfl rfl⟩

/-- C9: construction succeeds exactly when one stored `Signal` row matches
the instance's content type; with no matching row it raises `DoesNotExist`
and with several it raises `MultipleObjectsReturned`, in both cases before
any constraint is resolved or evaluated. -/
theorem init_unique_signal (db : DB) (inst : Instance) (kwargs : Kwargs) :
    ((db.signals.filter (fun s => s.content_type = inst.content_type)).length = 1 →
      ∃ cc, ConstraintChecker.init db inst kwargs = .ok cc) ∧
    (db.signals.filter (fun s => s.content_type = inst.content_type) = [] →
      ConstraintChecker.init db inst kwargs = .error .doesNotExist) ∧
    (2 ≤ (db.signals.filter (fun s => s.content_type = inst.content_type)).length →
      ConstraintChecker.init db inst kwargs = .error .multipleObjectsReturned) := by
  refine ⟨?_, ?_, ?_⟩
  · intro h1
    rcases hf : db.signals.filter (fun s => s.content_type = inst.content_type) with _ | ⟨s, rest⟩
    · rw [hf] at h1
      simp at h1
    · rcases rest with _ | ⟨t, l⟩
      · refine ⟨{ inst := inst, signal_kwargs := kwargs,
                  constraints := signal_constraint_objects_filter db.constraints s }, ?_⟩
        simp [ConstraintChecker.init, signal_objects_get, hf, Bind.bind, Except.bind]
      · rw [hf] at h1
        simp at h1
  · intro h0
    simp [ConstraintChecker.init, signal_objects_get, h0, Bind.bind, Except.bind]
  · intro h2
    rcases hf : db.signals.filter (fun s => s.content_type = inst.content_type) with _ | ⟨s, rest⟩
    · rw [hf] at h2
      simp at h2
    · rcases rest with _ | ⟨t, l⟩
      · rw [hf] at h2
        simp at h2
      · simp [ConstraintChecker.init, signal_objects_get, hf, Bind.bind, Except.bind]

/-- C9 witness: with the one-signal database construction succeeds; with an
empty database it raises `DoesNotExist`; with two signals for content type 7
it raises `MultipleObjectsReturned`. -/
theorem init_unique_signal_witness :
    (∃ cc, ConstraintChecker.init db1 inst7 [] = .ok cc) ∧
    ConstraintChecker.init { signals := [], constraints := [] } inst7 [] = .error .doesNotExist ∧
    ConstraintChecker.init db2 inst7 [] = .error .multipleObjectsReturned :=
  ⟨(init_unique_signal db1 inst7 []).1 (by decide),
   (init_unique_signal { signals := [], constraints := [] } inst7 []).2.1 (by decide),
   (init_unique_signal db2 inst7 []).2.2 (by decide)⟩

/-- The loop of `signal_callback` is governed by one checker verdict that is
independent of which matched definition is being processed: it emails every
definition in the list when the verdict is true, none when it is false, and
propagates the error (raised on the first iteration) when the checker
errors. -/
theorem signal_callback_loop_characterization (db : DB) (inst : Instance)
    (kwargs : Kwargs) (l : List Signal) :
    signal_callback_loop db inst kwargs l =
      match (ConstraintChecker.init db inst kwargs).bind ConstraintChecker.run_tests with
      | .ok true => .ok l
      | .ok false => .ok []
      | .error e => if l.isEmpty then .ok [] else .error e := by
  induction l with
  | nil =>
    rcases h : (ConstraintChecker.init db inst kwargs).bind ConstraintChecker.run_tests
      with e | b
    · simp [signal_callback_loop]
    · cases b <;> simp [signal_callback_loop]
  | cons ms rest ih =>
    rcases hi : ConstraintChecker.init db inst kwargs with e | cc
    · simp [signal_callback_loop, hi, Bind.bind, Except.bind]
    · rcases hr : cc.run_tests with e | b
      · simp [signal_callback_loop, hi, hr, Bind.bind, Except.bind]
      · rw [hi] at ih
        cases b <;>
          simp_all [signal_callback_loop, hi, hr, Bind.bind, Except.bind]

/-- C10: within one invocation of `signal_callback`, the checker verdict
does not depend on which matching definition is being processed, so either
every matching definition triggers an email request or none does (or the
shared verdict errors and no email is sent). -/
theorem signal_callback_all_or_none (db : DB) (inst : Instance) (ev : String)
    (kwargs : Kwargs) :
    signal_callback db inst ev kwargs = .ok (get_for_model_and_signal db inst ev) ∨
    signal_callback db inst ev kwargs = .ok [] ∨
    ∃ e, signal_callback db inst ev kwargs = .error e := by
  unfold signal_callback
  rw [signal_callback_loop_characterization]
  rcases (ConstraintChecker.init db inst kwargs).bind ConstraintChecker.run_tests with e | b
  · by_cases h : (get_for_model_and_signal db inst ev).isEmpty
    · right; left
      simp [h]
    · right; right
      exact ⟨e, by simp [h]⟩
  · cases b
    · right; left
      rfl
    · left
      rfl

/-- C1 counterexample: in `db2` the definition matching (content type 7,
`pre_save`) is `sigPre`, whose attached constraint set is `[cStatus]`, yet
the checker never evaluates it — constraint selection keys on the content
type alone, and the second stored signal for the same type makes
`Signal.objects.get` raise `MultipleObjectsReturned`, which propagates out
of the whole callback. -/
theorem constraint_selection_counterexample :
    get_for_model_and_signal db2 inst7 "pre_save" = [sigPre] ∧
    signal_constraint_objects_filter db2.constraints sigPre = [cStatus] ∧
    ConstraintChecker.init db2 inst7 [] = .error .multipleObjectsReturned ∧
    signal_callback db2 inst7 "pre_save" [] = .error .multipleObjectsReturned :=
  ⟨by decide, by decide, by rfl, by rfl⟩

/-- C1 amended: the constraint set a successfully constructed checker
evaluates is determined by the object's content type alone — it is the
constraints attached to the unique stored signal for that content type,
independent of the event type and of which matched definition is being
processed. -/
theorem constraints_from_content_type_only (db : DB) (inst : Instance)
    (kwargs : Kwargs) (cc : ConstraintChecker)
    (h : ConstraintChecker.init db inst kwargs = .ok cc) :
    ∃ s, signal_objects_get db.signals inst.content_type = .ok s ∧
      cc.constraints = signal_constraint_objects_filter db.constraints s := by
  unfold ConstraintChecker.init at h
  cases hs : signal_objects_get db.signals inst.content_type with
  | error e =>
    rw [hs] at h
    exact Except.noConfusion (show Except.error e = Except.ok cc from h)
  | ok s =>
    rw [hs] at h
    refine ⟨s, rfl, ?_⟩
    have h' : Except.ok (ConstraintChecker.mk inst kwargs
        (signal_constraint_objects_filter db.constraints s)) = Except.ok cc := h
    cases h'
    rfl

/-- C1 amended witness: on the one-signal database the constructed checker's
constraint set is exactly the constraint row attached to that signal. -/
theorem constraints_from_content_type_only_witness :
    ∃ s, signal_objects_get db1.signals inst7.content_type = .ok s ∧
      (ConstraintChecker.mk inst7 [] [cStatus]).constraints
        = signal_constraint_objects_filter db1.constraints s :=
  constraints_from_content_type_only db1 inst7 []
    (ConstraintChecker.mk inst7 [] [cStatus]) (by rfl)
